import Mathlib

/-!
Verification model of `RobotGUI/Logic/Video.py` (class `VideoStream`).

Frames are mutable objects in Python, so we model them as references into an
explicit heap: `Ref` is an address, `Heap` the store of frame values.  A
`.copy()` call allocates a fresh cell holding the same value; a plain
assignment shares the reference.  The `VideoStream` record mirrors the
attributes set in `VideoStream.__init__`; the camera driver (cv2) and the
fps timer are modelled as environments (`CamEnv`, `LoopEnv`) supplying the
outcome of each external call.  Work callbacks are side-effecting only and
their external effects are not observable in this state, so the work section
of the loop leaves the modelled state unchanged; filter callbacks are pure
frame-to-frame functions, interpreted by `LoopEnv.filterImpl`.
-/

namespace VideoModel

abbrev Ref := Nat

/-- A frame value: an image buffer with its shape (shape[0] = rows,
shape[1] = cols) and pixel data. -/
structure Frame where
  rows : Nat
  cols : Nat
  data : List Nat
deriving DecidableEq, Repr

/-- The heap of allocated frame objects; a `Ref` is an index into it. -/
abbrev Heap := List Frame

/-- Dereference a frame object. -/
def Heap.read (h : Heap) (r : Ref) : Frame := h.getD r ⟨0, 0, []⟩

/-- In-place mutation of a frame object (out-of-range writes are no-ops). -/
def Heap.write (h : Heap) (r : Ref) (v : Frame) : Heap := h.set r v

/-- Allocate a fresh frame object (`.copy()` in the source allocates). -/
def Heap.alloc (h : Heap) (v : Frame) : Heap × Ref := (h ++ [v], h.length)

/-- The mutable attributes of `VideoStream` (`__init__`, Video.py lines
33-56).  `cap` holds the device id the current `cv2.VideoCapture` was built
from (`none` when `self.cap is None`); `mainThread` records whether
`self.mainThread` is non-None; frames are references into the heap;
filter/work callbacks are identified by numeric ids. -/
structure VideoStream where
  running     : Bool
  setCamera   : Option Nat
  paused      : Bool
  cameraID    : Option Nat
  fps         : Nat
  cap         : Option Nat
  dimensions  : Option (List Nat)
  frame       : Option Ref
  frameList   : List Ref
  frameCount  : Nat
  filterFrame : Option Ref
  filterList  : List Nat
  workList    : List Nat
  mainThread  : Bool
deriving DecidableEq, Repr

/-- `VideoStream.__init__(fps=24)`. -/
def initStream (fps : Nat) : VideoStream :=
  ⟨false, none, true, none, fps, none, none, none, [], 0, none, [], [], false⟩

/-- Environment describing the camera driver: whether
`cv2.VideoCapture(id).isOpened()` holds, and the result of the probe
`cap.read()` performed right after opening. -/
structure CamEnv where
  isOpened  : Nat → Bool
  probeRead : Nat → Option Frame

/-- `VideoStream.__setNewCamera(cameraID)` (Video.py lines 184-225).
Releases any current capture, opens the new device, and on any failure
clears `dimensions`, `cap` and `setCamera` and returns `false`; on success
derives `dimensions = [shape[1], shape[0]]`, clears `setCamera`, records
`cameraID`, and returns `true`. -/
def setNewCameraPriv (env : CamEnv) (s : VideoStream) (cameraID : Nat) :
    VideoStream × Bool :=
  let s1 := { s with cap := some cameraID }
  if env.isOpened cameraID = false then
    ({ s1 with dimensions := none, cap := none, setCamera := none }, false)
  else
    match env.probeRead cameraID with
    | some f =>
        ({ s1 with dimensions := some [f.cols, f.rows],
                   setCamera := none, cameraID := some cameraID }, true)
    | none =>
        ({ s1 with dimensions := none, cap := none, setCamera := none }, false)

/-- `VideoStream.startThread()` (lines 93-99): spawn the loop thread only if
none exists; otherwise log an error and change nothing. -/
def startThread (s : VideoStream) : VideoStream :=
  if s.mainThread = false then { s with running := true, mainThread := true }
  else s

/-- `VideoStream.setNewCamera(cameraID)` (lines 59-69), the public camera
request.  Returns the new state and whether the request was accepted
(`false` means it was rejected and an error logged). -/
def setNewCamera (s : VideoStream) (cameraID : Nat) : VideoStream × Bool :=
  if s.setCamera = none then
    ({ startThread s with setCamera := some cameraID }, true)
  else
    (s, false)

/-- `VideoStream.endThread()` (lines 101-111): signal the loop to stop and
join the thread. -/
def endThread (s : VideoStream) : VideoStream :=
  { s with running := false, mainThread := false }

/-- One pass of `while len(self.frameList) > 10: del self.frameList[-1]`
(lines 149-150), fuelled by the list length (each pass drops one element,
so `l.length` rounds always suffice). -/
def trimHistoryAux : Nat → List Ref → List Ref
  | 0, l => l
  | n + 1, l => if l.length > 10 then trimHistoryAux n l.dropLast else l

/-- The history-trimming loop of `__videoThread`. -/
def trimHistory (l : List Ref) : List Ref := trimHistoryAux l.length l

/-- `self.frameList.insert(0, copy)` followed by the trimming loop
(lines 147-150). -/
def pushHistory (l : List Ref) (r : Ref) : List Ref := trimHistory (r :: l)

/-- The per-commit sequence-counter update (lines 153-156):
`if self.frameCount >= 100: self.frameCount = 0 else: self.frameCount += 1`. -/
def frameCountStep (c : Nat) : Nat := if c ≥ 100 then 0 else c + 1

/-- The frame-commit section of `__videoThread` (lines 143-156): store the
newly read frame object, push a `.copy()` of it onto the history, trim the
history, advance the counter. -/
def commitFrame (s : VideoStream) (h : Heap) (newFrame : Frame) :
    VideoStream × Heap :=
  let a1 := Heap.alloc h newFrame
  let a2 := Heap.alloc a1.1 (Heap.read a1.1 a1.2)
  ({ s with frame := some a1.2,
            frameList := pushHistory s.frameList a2.2,
            frameCount := frameCountStep s.frameCount }, a2.1)

/-- `VideoStream.getFrame()` (lines 229-235): a `.copy()` of the latest
frame, or `None` if none was ever stored. -/
def getFrame (s : VideoStream) (h : Heap) : Heap × Option Ref :=
  match s.frame with
  | some r =>
      let a := Heap.alloc h (Heap.read h r)
      (a.1, some a.2)
  | none => (h, none)

/-- `VideoStream.getFilteredWithID()` (lines 237-243): when a filtered frame
exists, the counter together with a `.copy()` of it; otherwise
`(None, None)`. -/
def getFilteredWithID (s : VideoStream) (h : Heap) :
    Heap × Option Nat × Option Ref :=
  match s.filterFrame with
  | some r =>
      let a := Heap.alloc h (Heap.read h r)
      (a.1, some s.frameCount, some a.2)
  | none => (h, none, none)

/-- `VideoStream.getFrameList()` (lines 245-252): `list(self.frameList)`
builds a fresh list object whose entries are the very same frame
references as the stored history. -/
def getFrameList (s : VideoStream) : List Ref := s.frameList

/-- `VideoStream.addFilter(filterFunc)` (lines 256-261). -/
def addFilter (s : VideoStream) (g : Nat) : VideoStream :=
  if g ∈ s.filterList then s
  else { s with filterList := s.filterList ++ [g] }

/-- `VideoStream.addWork(workFunc)` (lines 263-268). -/
def addWork (s : VideoStream) (g : Nat) : VideoStream :=
  if g ∈ s.workList then s
  else { s with workList := s.workList ++ [g] }

/-- `VideoStream.removeWork(workFunc)` (lines 270-277); Python
`list.remove` deletes the first occurrence. -/
def removeWork (s : VideoStream) (g : Nat) : VideoStream :=
  if g ∉ s.workList then s
  else { s with workList := s.workList.erase g }

/-- `VideoStream.removeFilter(filterFunc)` (lines 279-284). -/
def removeFilter (s : VideoStream) (g : Nat) : VideoStream :=
  if g ∉ s.filterList then s
  else { s with filterList := s.filterList.erase g }

/-- Per-tick inputs for `__videoThread`: whether the fps gate admits the
tick, the camera environment, the result of this tick's `cap.read()`, and
the interpretation of the (pure) filter callbacks. -/
structure LoopEnv where
  ready      : Bool
  cam        : CamEnv
  readResult : Option Frame
  filterImpl : Nat → Frame → Frame

/-- Observable events of one tick: whether a read error was logged, which
device id a reopen was attempted on, and the cool-down imposed
(`cv2.waitKey(1000)`). -/
structure TickTrace where
  loggedReadError : Bool
  reopenAttempted : Option Nat
  cooldownMs      : Nat
deriving DecidableEq, Repr

def emptyTrace : TickTrace := ⟨false, none, 0⟩

structure TickResult where
  state : VideoStream
  heap  : Heap
  trace : TickTrace

/-- The filter section of `__videoThread` (lines 167-178): when filters are
registered, chain them over a `.copy()` of the raw frame and store the
result; otherwise `self.filterFrame = self.frame` shares the raw frame's
reference. -/
def runFilterSection (env : LoopEnv) (s : VideoStream) (h : Heap) :
    VideoStream × Heap :=
  if s.filterList ≠ [] then
    let g := getFrame s h
    match g.2 with
    | some rc =>
        let v := s.filterList.foldl (fun v f => env.filterImpl f v)
                   (Heap.read g.1 rc)
        let a := Heap.alloc g.1 v
        ({ s with filterFrame := some a.2 }, a.1)
    | none => ({ s with filterFrame := none }, g.1)
  else
    ({ s with filterFrame := s.frame }, h)

/-- Line 127: `if self.setCamera is not None: self.__setNewCamera(self.setCamera)`. -/
def handleCameraRequest (env : CamEnv) (s : VideoStream) : VideoStream :=
  match s.setCamera with
  | some c => (setNewCameraPriv env s c).1
  | none => s

/-- Line 137: `self.__setNewCamera(self.cameraID)` after a failed read.  In
every reachable state `s.cap ≠ none` implies `s.cameraID ≠ none` (the two
are only set together by a successful open), so this matches on
`s.cameraID`. -/
def handleReadFailure (env : CamEnv) (s : VideoStream) : VideoStream :=
  match s.cameraID with
  | some c => (setNewCameraPriv env s c).1
  | none => s

/-- One iteration of the `while self.running` body of `__videoThread`
(lines 124-178). -/
def tick (env : LoopEnv) (s : VideoStream) (h : Heap) : TickResult :=
  if env.ready = false then ⟨s, h, emptyTrace⟩
  else
    let s1 := handleCameraRequest env.cam s
    if s1.paused then ⟨s1, h, emptyTrace⟩
    else if s1.cap = none then ⟨s1, h, emptyTrace⟩
    else
      match env.readResult with
      | none => ⟨handleReadFailure env.cam s1, h, ⟨true, s1.cameraID, 1000⟩⟩
      | some f =>
          let c := commitFrame s1 h f
          let r := runFilterSection env c.1 c.2
          ⟨r.1, r.2, emptyTrace⟩

/-- The value of the stored raw frame, read through its reference. -/
def rawValue (t : TickResult) : Option Frame :=
  t.state.frame.map (Heap.read t.heap)

/-- The value of the stored filtered frame, read through its reference. -/
def filteredValue (t : TickResult) : Option Frame :=
  t.state.filterFrame.map (Heap.read t.heap)

/-- The `while self.running` loop itself, fuelled: it checks `running` at
the top of every iteration and exits only when it is false. -/
def runLoop (envs : Nat → LoopEnv) : Nat → VideoStream → Heap →
    VideoStream × Heap
  | 0, s, h => (s, h)
  | n + 1, s, h =>
      if s.running then
        let t := tick (envs n) s h
        runLoop envs n t.state t.heap
      else (s, h)

/-! Helper lemmas about the history-trimming loop. -/

theorem trimHistoryAux_eq_take (n : Nat) (l : List Ref) (hl : l.length ≤ n) :
    trimHistoryAux n l = l.take 10 := by
  induction n generalizing l with
  | zero =>
      have : l = [] := List.length_eq_zero.1 (Nat.le_zero.1 hl)
      subst this; rfl
  | succ n ih =>
      simp only [trimHistoryAux]
      by_cases h : l.length > 10
      · rw [if_pos h, ih _ (by rw [List.length_dropLast]; omega)]
        rw [List.dropLast_eq_take, List.take_take]
        congr 1
        omega
      · rw [if_neg h, List.take_of_length_le (by omega)]

theorem trimHistory_eq_take (l : List Ref) : trimHistory l = l.take 10 :=
  trimHistoryAux_eq_take l.length l le_rfl

theorem pushHistory_eq (l : List Ref) (r : Ref) :
    pushHistory l r = (r :: l).take 10 :=
  trimHistory_eq_take _

theorem foldl_pushHistory (fs : List Ref) (acc : List Ref)
    (hacc : acc.length ≤ 10) :
    fs.foldl pushHistory acc = (fs.reverse ++ acc).take 10 := by
  induction fs generalizing acc with
  | nil => simpa using (List.take_of_length_le hacc).symm
  | cons a fs ih =>
      rw [List.foldl_cons, ih _ (by rw [pushHistory_eq]; simp),
        pushHistory_eq, List.reverse_cons, List.append_assoc,
        List.singleton_append, List.take_append_eq_append_take,
        List.take_append_eq_append_take, List.take_take]
      congr 1
      congr 1
      omega

/-! Helper lemmas about the heap of frame objects. -/

theorem Heap.read_append_self (h : Heap) (f : Frame) (t : List Frame) :
    Heap.read (h ++ f :: t) h.length = f := by
  unfold Heap.read
  rw [List.getD_eq_getElem?_getD, List.getElem?_append_right le_rfl]
  simp

theorem Heap.read_append_lt (h t : List Frame) (r : Ref) (hr : r < h.length) :
    Heap.read (h ++ t) r = Heap.read h r := by
  unfold Heap.read
  rw [List.getD_eq_getElem?_getD, List.getD_eq_getElem?_getD,
    List.getElem?_append_left hr]

theorem Heap.read_append_right (h t : List Frame) (k : Nat) :
    Heap.read (h ++ t) (h.length + k) = Heap.read t k := by
  unfold Heap.read
  rw [List.getD_eq_getElem?_getD, List.getD_eq_getElem?_getD,
    List.getElem?_append_right (Nat.le_add_right _ _)]
  simp

theorem Heap.read_write_self (h : Heap) (r : Ref) (v : Frame)
    (hr : r < h.length) :
    Heap.read (Heap.write h r v) r = v := by
  unfold Heap.read Heap.write
  rw [List.getD_eq_getElem?_getD]
  simp [List.getElem?_set, hr]

/-! Helper lemmas: no step of the loop body ever touches `running`. -/

theorem setNewCameraPriv_running (env : CamEnv) (s : VideoStream) (c : Nat) :
    (setNewCameraPriv env s c).1.running = s.running := by
  unfold setNewCameraPriv
  split
  · rfl
  · split <;> rfl

theorem handleCameraRequest_running (env : CamEnv) (s : VideoStream) :
    (handleCameraRequest env s).running = s.running := by
  unfold handleCameraRequest
  split
  · exact setNewCameraPriv_running env s _
  · rfl

theorem handleReadFailure_running (env : CamEnv) (s : VideoStream) :
    (handleReadFailure env s).running = s.running := by
  unfold handleReadFailure
  split
  · exact setNewCameraPriv_running env s _
  · rfl

theorem commitFrame_running (s : VideoStream) (h : Heap) (f : Frame) :
    (commitFrame s h f).1.running = s.running := rfl

theorem runFilterSection_running (env : LoopEnv) (s : VideoStream) (h : Heap) :
    (runFilterSection env s h).1.running = s.running := by
  unfold runFilterSection
  split
  · dsimp only
    split <;> rfl
  · rfl

theorem tick_running (env : LoopEnv) (s : VideoStream) (h : Heap) :
    (tick env s h).state.running = s.running := by
  unfold tick
  split
  · rfl
  · simp only
    split
    · exact handleCameraRequest_running env.cam s
    · split
      · exact handleCameraRequest_running env.cam s
      · split
        · exact (handleReadFailure_running env.cam _).trans
            (handleCameraRequest_running env.cam s)
        · exact ((runFilterSection_running env _ _).trans
            (commitFrame_running _ _ _)).trans
            (handleCameraRequest_running env.cam s)

theorem runLoop_stopped (envs : Nat → LoopEnv) (n : Nat) (s : VideoStream)
    (h : Heap) (hstop : s.running = false) :
    runLoop envs n s h = (s, h) := by
  cases n with
  | zero => rfl
  | succ n => simp [runLoop, hstop]

set_option maxRecDepth 10000 in
/-- C2, counterexample: starting from 0, one hundred successful commits
advance the sequence counter (`frameCountStep` per commit, Video.py lines
152-156) to 100, not back to 0: the counter only wraps on the commit after
it has reached 100. -/
theorem c2_counterexample : frameCountStep^[100] 0 = 100 ∧ (100 : Nat) ≠ 0 :=
  ⟨by decide, by decide⟩

set_option maxRecDepth 10000 in
/-- C2, amended: each successful commit advances the sequence counter by
`frameCountStep`, which on the reachable values 0..100 is exactly
increment modulo 101; hence the counter returns to 0 after exactly 101
commits from 0 (not 100), and is monotonically increasing modulo 101
between observations taken in commit order. -/
theorem c2_amended :
    (∀ s h f, (commitFrame s h f).1.frameCount = frameCountStep s.frameCount) ∧
    (∀ c, c ≤ 100 → frameCountStep c = (c + 1) % 101) ∧
    frameCountStep^[101] 0 = 0 := by
  refine ⟨fun s h f => rfl, fun c hc => ?_, by decide⟩
  unfold frameCountStep
  by_cases h : c ≥ 100
  · have hc100 : c = 100 := by omega
    subst hc100
    simp
  · rw [if_neg h]
    omega

/-- C2, witness for the amended theorem at a concrete counter value. -/
theorem c2_amended_witness : frameCountStep 7 = (7 + 1) % 101 :=
  c2_amended.2.1 7 (by decide)

/-- C5: committing any sequence of frames from an empty history (each
commit runs `pushHistory`, Video.py lines 147-150) leaves a history of
length `min 10 n`, equal to the reversed commit sequence truncated to 10
(newest first, oldest evicted), whose first element is the most recently
committed frame. -/
theorem c5_history_characterization (fs : List Ref) :
    (fs.foldl pushHistory []).length = min 10 fs.length ∧
    fs.foldl pushHistory [] = fs.reverse.take 10 ∧
    (fs.foldl pushHistory []).head? = fs.getLast? := by
  have hmain : fs.foldl pushHistory [] = fs.reverse.take 10 := by
    simpa using foldl_pushHistory fs [] (by simp)
  refine ⟨?_, hmain, ?_⟩
  · rw [hmain, List.length_take, List.length_reverse]
  · rw [hmain, ← List.head?_reverse fs]
    cases fs.reverse with
    | nil => rfl
    | cons a t => rfl

/-- C9: callback registration is idempotent and removal total, for both
pipelines (Video.py lines 256-284): adding a present callback changes
nothing (and under the no-duplicate invariant the callback has exactly one
entry), adding an absent one appends it at the end preserving no-duplicates,
removing an absent one is a no-op, and removal always yields a sublist
(preserving the relative order of the remaining entries). -/
theorem c9_pipeline_registration (s : VideoStream) (g : Nat) :
    (g ∈ s.filterList → addFilter s g = s) ∧
    (g ∉ s.filterList → (addFilter s g).filterList = s.filterList ++ [g]) ∧
    (s.filterList.Nodup →
      (addFilter s g).filterList.count g = 1 ∧
      (addFilter s g).filterList.Nodup) ∧
    (g ∉ s.filterList → removeFilter s g = s) ∧
    (removeFilter s g).filterList.Sublist s.filterList ∧
    (g ∈ s.workList → addWork s g = s) ∧
    (g ∉ s.workList → (addWork s g).workList = s.workList ++ [g]) ∧
    (g ∉ s.workList → removeWork s g = s) ∧
    (removeWork s g).workList.Sublist s.workList := by
  refine ⟨fun hm => by simp [addFilter, hm],
    fun hm => by simp [addFilter, hm],
    fun hnd => ?_,
    fun hm => by simp [removeFilter, hm],
    ?_,
    fun hm => by simp [addWork, hm],
    fun hm => by simp [addWork, hm],
    fun hm => by simp [removeWork, hm],
    ?_⟩
  · by_cases hm : g ∈ s.filterList
    · simp only [addFilter, if_pos hm]
      exact ⟨List.count_eq_one_of_mem hnd hm, hnd⟩
    · simp only [addFilter, if_neg hm]
      constructor
      · rw [List.count_append, List.count_eq_zero.2 hm]
        simp
      · simp [List.nodup_append, hnd, hm]
  · by_cases hm : g ∈ s.filterList
    · simp only [removeFilter, hm, not_true, if_neg, ite_false]
      exact List.erase_sublist g s.filterList
    · simp [removeFilter, hm]
  · by_cases hm : g ∈ s.workList
    · simp only [removeWork, hm, not_true, if_neg, ite_false]
      exact List.erase_sublist g s.workList
    · simp [removeWork, hm]

/-- C9, witness: registering an already-present callback is a no-op on a
concrete state. -/
theorem c9_pipeline_witness :
    addFilter { initStream 24 with filterList := [5] } 5 =
      { initStream 24 with filterList := [5] } :=
  (c9_pipeline_registration { initStream 24 with filterList := [5] } 5).1
    (by decide)

/-- C10: when no filtered frame has ever been stored, `getFilteredWithID`
returns `(None, None)` — heap untouched, the counter withheld together with
the frame (Video.py lines 237-243) — and in general a caller can never
observe a sequence number paired with an absent frame. -/
theorem c10_filtered_none (s : VideoStream) (h : Heap)
    (hnone : s.filterFrame = none) :
    getFilteredWithID s h = (h, none, none) ∧
    (∀ s2 h2, (getFilteredWithID s2 h2).2.2 = none →
      (getFilteredWithID s2 h2).2.1 = none) := by
  constructor
  · simp [getFilteredWithID, hnone]
  · intro s2 h2 hnil
    cases hf : s2.filterFrame with
    | none => simp [getFilteredWithID, hf]
    | some r => simp [getFilteredWithID, hf] at hnil

/-- C10, witness: the freshly initialised stream has no filtered frame and
the accessor indeed returns the `(None, None)` pair. -/
theorem c10_filtered_none_witness :
    getFilteredWithID (initStream 24) [] = ([], none, none) :=
  (c10_filtered_none (initStream 24) [] rfl).1

def c4Env : CamEnv := ⟨fun _ => false, fun _ => none⟩

def c4State : VideoStream := { initStream 24 with cameraID := some 7 }

/-- C4, counterexample: with device 7 previously active, a failed open of
device 3 returns an error but leaves the active device id `cameraID` at 7 —
it is not cleared (Video.py lines 198-204 clear `dimensions`, `cap` and the
pending request `setCamera`, never `cameraID`). -/
theorem c4_counterexample :
    (setNewCameraPriv c4Env c4State 3).2 = false ∧
    (setNewCameraPriv c4Env c4State 3).1.cameraID = some 7 := by
  exact ⟨rfl, rfl⟩

/-- C4, amended: when opening a device fails (the device reports not-open,
or the probe read fails), the open operation releases the device and clears
the dimensions, the capture handle and the pending camera request before
returning an error; the active device id is left at its previous value (it
is only updated on a successful open). -/
theorem c4_open_failure (env : CamEnv) (s : VideoStream) (c : Nat)
    (hfail : env.isOpened c = false ∨
      (env.isOpened c = true ∧ env.probeRead c = none)) :
    (setNewCameraPriv env s c).2 = false ∧
    (setNewCameraPriv env s c).1.dimensions = none ∧
    (setNewCameraPriv env s c).1.cap = none ∧
    (setNewCameraPriv env s c).1.setCamera = none ∧
    (setNewCameraPriv env s c).1.cameraID = s.cameraID := by
  rcases hfail with hopen | ⟨hopen, hprobe⟩
  · simp [setNewCameraPriv, hopen]
  · simp [setNewCameraPriv, hopen, hprobe]

/-- C4, witness for the amended theorem on a concrete failed open. -/
theorem c4_open_failure_witness :
    (setNewCameraPriv c4Env c4State 3).2 = false ∧
    (setNewCameraPriv c4Env c4State 3).1.dimensions = none ∧
    (setNewCameraPriv c4Env c4State 3).1.cap = none ∧
    (setNewCameraPriv c4Env c4State 3).1.setCamera = none ∧
    (setNewCameraPriv c4Env c4State 3).1.cameraID = c4State.cameraID :=
  c4_open_failure c4Env c4State 3 (Or.inl rfl)

/-- C7: a camera request made while one is pending is rejected with no
state change at all (the pending request keeps its value); when no request
is pending, the call starts the loop if it is not running (`startThread` is
a no-op when the thread exists) and records the new request (Video.py
lines 59-69). -/
theorem c7_request_camera (s : VideoStream) (d : Nat) :
    (s.setCamera ≠ none → setNewCamera s d = (s, false)) ∧
    (s.setCamera = none →
      setNewCamera s d = ({ startThread s with setCamera := some d }, true) ∧
      (s.mainThread = false →
        (setNewCamera s d).1.running = true ∧
        (setNewCamera s d).1.mainThread = true) ∧
      (s.mainThread = true →
        (setNewCamera s d).1.running = s.running ∧
        (setNewCamera s d).1.mainThread = true)) := by
  refine ⟨fun hne => by simp [setNewCamera, hne], fun hno => ?_⟩
  refine ⟨by simp [setNewCamera, hno], fun hmt => ?_, fun hmt => ?_⟩
  · simp [setNewCamera, hno, startThread, hmt]
  · simp [setNewCamera, hno, startThread, hmt]

def c7State : VideoStream := { initStream 24 with setCamera := some 2 }

/-- C7, witness: a second request while request 2 is pending is rejected
and changes nothing. -/
theorem c7_request_camera_witness : setNewCamera c7State 9 = (c7State, false) :=
  (c7_request_camera c7State 9).1 (by decide)

/-- C8: on a failed frame read (with the fps gate open, not paused, a
capture held and device `c` active) the tick logs the read error, attempts
to reopen device `c`, imposes the fixed 1000 ms cool-down, and leaves
`running` unchanged; moreover no tick whatsoever modifies `running`, and
the loop exits exactly when `running` is false — `endThread` being the
explicit stop (Video.py lines 124-139, 101-111). -/
theorem c8_read_failure_keeps_running (env : LoopEnv) (envs : Nat → LoopEnv)
    (s : VideoStream) (h : Heap) (c : Nat)
    (hready : env.ready = true) (hcam : s.setCamera = none)
    (hp : s.paused = false) (hcap : s.cap ≠ none)
    (hid : s.cameraID = some c) (hread : env.readResult = none) :
    (tick env s h).trace.loggedReadError = true ∧
    (tick env s h).trace.reopenAttempted = some c ∧
    (tick env s h).trace.cooldownMs = 1000 ∧
    (tick env s h).state = (setNewCameraPriv env.cam s c).1 ∧
    (tick env s h).state.running = s.running ∧
    (∀ e s2 h2, (tick e s2 h2).state.running = s2.running) ∧
    (∀ n s2 h2, s2.running = false → runLoop envs n s2 h2 = (s2, h2)) ∧
    (∀ s2, (endThread s2).running = false) := by
  have hmain : tick env s h =
      ⟨handleReadFailure env.cam s, h, ⟨true, s.cameraID, 1000⟩⟩ := by
    unfold tick
    rw [if_neg (by simp [hready])]
    have h1 : handleCameraRequest env.cam s = s := by
      unfold handleCameraRequest
      rw [hcam]
    rw [h1, if_neg (by simp [hp]), if_neg hcap, hread]
  refine ⟨by rw [hmain], by rw [hmain]; exact hid,
    by rw [hmain],
    by rw [hmain]; unfold handleReadFailure; rw [hid],
    (tick_running env s h).symm ▸ rfl,
    fun e s2 h2 => tick_running e s2 h2,
    fun n s2 h2 hstop => runLoop_stopped envs n s2 h2 hstop,
    fun s2 => rfl⟩

def c8Env : LoopEnv := ⟨true, ⟨fun _ => false, fun _ => none⟩, none, fun _ v => v⟩

def c8State : VideoStream :=
  { initStream 24 with running := true, paused := false,
                       cap := some 4, cameraID := some 4 }

/-- C8, witness: a concrete failed read logs, reopens device 4, cools down
for 1000 ms, and leaves the loop running. -/
theorem c8_read_failure_witness :
    (tick c8Env c8State []).trace.loggedReadError = true ∧
    (tick c8Env c8State []).state.running = c8State.running :=
  ⟨(c8_read_failure_keeps_running c8Env (fun _ => c8Env) c8State [] 4
      rfl rfl rfl (by decide) rfl rfl).1,
   (c8_read_failure_keeps_running c8Env (fun _ => c8Env) c8State [] 4
      rfl rfl rfl (by decide) rfl rfl).2.2.2.2.1⟩

def c3State : VideoStream :=
  { initStream 24 with frame := some 0, frameList := [0] }

def c3Heap : Heap := [⟨1, 1, [5]⟩]

/-- C3, counterexample: with one frame in the history, mutating the frame
obtained from the list returned by `getFrameList` changes the frame held in
the history from `[5]` to `[9]` — `list(self.frameList)` (Video.py line
252) copies only the list, not the frames, so the entries alias. -/
theorem c3_counterexample :
    Heap.read c3Heap (c3State.frameList.getD 0 7) = ⟨1, 1, [5]⟩ ∧
    Heap.read (Heap.write c3Heap ((getFrameList c3State).getD 0 7)
        ⟨1, 1, [9]⟩) (c3State.frameList.getD 0 7) = ⟨1, 1, [9]⟩ := by
  exact ⟨rfl, rfl⟩

/-- C3, amended: `getFrameList` returns a fresh list object (so changing
the returned list itself cannot affect the history), but its entries are
the very same frame references as the stored history: mutating a frame
taken from the returned sequence is observed at the corresponding history
entry. -/
theorem c3_frameList_shallow (s : VideoStream) (h : Heap) (i : Nat)
    (v : Frame) (_hi : i < (getFrameList s).length)
    (hr : (getFrameList s).getD i 0 < h.length) :
    getFrameList s = s.frameList ∧
    Heap.read (Heap.write h ((getFrameList s).getD i 0) v)
      (s.frameList.getD i 0) = v := by
  exact ⟨rfl, Heap.read_write_self h _ v hr⟩

/-- C3, witness for the amended theorem on the concrete one-frame state. -/
theorem c3_frameList_shallow_witness :
    getFrameList c3State = c3State.frameList ∧
    Heap.read (Heap.write c3Heap ((getFrameList c3State).getD 0 0)
      ⟨1, 1, [9]⟩) (c3State.frameList.getD 0 0) = ⟨1, 1, [9]⟩ :=
  c3_frameList_shallow c3State c3Heap 0 ⟨1, 1, [9]⟩ (by decide) (by decide)

def c1Env : LoopEnv :=
  ⟨true, ⟨fun _ => true, fun _ => none⟩, some ⟨2, 2, [1, 2, 3, 4]⟩,
    fun _ v => v⟩

def c1State : VideoStream :=
  { initStream 24 with running := true, paused := false,
                       cap := some 0, cameraID := some 0 }

/-- C1, counterexample: with no filters registered, after a successful tick
the stored filtered frame is the same reference as the stored raw frame
(`self.filterFrame = self.frame`, Video.py line 178), and mutating the
stored raw frame is observed through the stored filtered frame: the two do
alias. -/
theorem c1_counterexample :
    (tick c1Env c1State []).state.filterFrame =
      (tick c1Env c1State []).state.frame ∧
    Heap.read (tick c1Env c1State []).heap 0 = ⟨2, 2, [1, 2, 3, 4]⟩ ∧
    Heap.read (Heap.write (tick c1Env c1State []).heap 0 ⟨2, 2, [9, 9, 9, 9]⟩)
        ((tick c1Env c1State []).state.filterFrame.getD 99) =
      ⟨2, 2, [9, 9, 9, 9]⟩ := by
  exact ⟨rfl, rfl, rfl⟩

/-- C1, amended: when the filter pipeline is empty, the filtered frame
stored after a successful tick is the very same object as the stored raw
frame (aliasing, not a copy): it is equal to it by value, and mutating the
stored raw frame changes the stored filtered frame identically (and vice
versa), since both fields hold one reference. -/
theorem c1_empty_filters_alias (env : LoopEnv) (s : VideoStream) (h : Heap)
    (f : Frame) (hready : env.ready = true) (hcam : s.setCamera = none)
    (hp : s.paused = false) (hcap : s.cap ≠ none)
    (hread : env.readResult = some f) (hfl : s.filterList = []) :
    (tick env s h).state.frame = some h.length ∧
    (tick env s h).state.filterFrame = (tick env s h).state.frame ∧
    rawValue (tick env s h) = some f ∧
    filteredValue (tick env s h) = rawValue (tick env s h) ∧
    (∀ v, Heap.read (Heap.write (tick env s h).heap h.length v) h.length
      = v) := by
  have h1 : handleCameraRequest env.cam s = s := by
    unfold handleCameraRequest
    rw [hcam]
  have hcopy : Heap.read (h ++ [f]) h.length = f := Heap.read_append_self h f []
  have hmain : tick env s h =
      ⟨{ s with frame := some h.length,
                frameList := pushHistory s.frameList (h.length + 1),
                frameCount := frameCountStep s.frameCount,
                filterFrame := some h.length },
        h ++ [f] ++ [f], emptyTrace⟩ := by
    unfold tick
    rw [if_neg (by simp [hready]), h1, if_neg (by simp [hp]), if_neg hcap,
      hread]
    unfold commitFrame runFilterSection Heap.alloc
    simp [hfl, hcopy]
  refine ⟨by rw [hmain], by rw [hmain], ?_, by rw [hmain]; rfl, fun v => ?_⟩
  · rw [hmain]
    unfold rawValue
    simp only [Option.map_some]
    rw [List.append_assoc, List.singleton_append]
    exact congrArg some (Heap.read_append_self h f [f])
  · rw [hmain]
    exact Heap.read_write_self _ _ _ (by simp)

/-- C1, witness for the amended theorem on the concrete state of the
counterexample. -/
theorem c1_empty_filters_alias_witness :
    (tick c1Env c1State []).state.frame = some ([] : Heap).length ∧
    (tick c1Env c1State []).state.filterFrame =
      (tick c1Env c1State []).state.frame :=
  ⟨(c1_empty_filters_alias c1Env c1State [] ⟨2, 2, [1, 2, 3, 4]⟩
      rfl rfl rfl (by decide) rfl rfl).1,
   (c1_empty_filters_alias c1Env c1State [] ⟨2, 2, [1, 2, 3, 4]⟩
      rfl rfl rfl (by decide) rfl rfl).2.1⟩

/-- C6: with filters `i` then `j` registered in that order, a successful
tick stores as filtered frame the value `j (i c)` where `c` is a copy of
the just-committed raw frame (the chain input is `self.getFrame()`, a copy,
and each filter's output feeds the next, Video.py lines 168-173); the
stored raw frame itself is left at the value read from the camera, and the
stored filtered frame is a distinct object from the raw frame. -/
theorem c6_filter_chain (env : LoopEnv) (s : VideoStream) (h : Heap)
    (f : Frame) (i j : Nat) (hready : env.ready = true)
    (hcam : s.setCamera = none) (hp : s.paused = false) (hcap : s.cap ≠ none)
    (hread : env.readResult = some f) (hfl : s.filterList = [i, j]) :
    rawValue (tick env s h) = some f ∧
    filteredValue (tick env s h) =
      some (env.filterImpl j (env.filterImpl i f)) ∧
    (tick env s h).state.frame = some h.length ∧
    (tick env s h).state.filterFrame ≠ (tick env s h).state.frame := by
  have h1 : handleCameraRequest env.cam s = s := by
    unfold handleCameraRequest
    rw [hcam]
  have hc1 : Heap.read (h ++ [f]) h.length = f := Heap.read_append_self h f []
  have hc2 : Heap.read (h ++ [f, f]) h.length = f :=
    Heap.read_append_self h f [f]
  have hc3 : Heap.read (h ++ [f, f, f]) (h.length + 2) = f :=
    Heap.read_append_right h [f, f, f] 2
  have hmain : tick env s h =
      ⟨{ s with frame := some h.length,
                frameList := pushHistory s.frameList (h.length + 1),
                frameCount := frameCountStep s.frameCount,
                filterFrame := some (h.length + 3) },
        h ++ [f, f, f, env.filterImpl j (env.filterImpl i f)],
        emptyTrace⟩ := by
    unfold tick
    rw [if_neg (by simp [hready]), h1, if_neg (by simp [hp]), if_neg hcap,
      hread]
    unfold commitFrame runFilterSection getFrame Heap.alloc
    simp [hfl, hc1, hc2, hc3]
  refine ⟨?_, ?_, by rw [hmain], by rw [hmain]; simp⟩
  · rw [hmain]
    unfold rawValue
    simp only [Option.map_some]
    exact congrArg some
      (Heap.read_append_self h f [f, f, env.filterImpl j (env.filterImpl i f)])
  · rw [hmain]
    unfold filteredValue
    simp only [Option.map_some]
    exact congrArg some
      (Heap.read_append_right h [f, f, f, env.filterImpl j (env.filterImpl i f)] 3)

def c6Env : LoopEnv :=
  ⟨true, ⟨fun _ => true, fun _ => none⟩, some ⟨1, 1, [3]⟩,
    fun g v => ⟨v.rows, v.cols, v.data ++ [g]⟩⟩

def c6State : VideoStream :=
  { initStream 24 with running := true, paused := false,
                       cap := some 0, cameraID := some 0,
                       filterList := [1, 2] }

/-- C6, witness: with concrete filters 1 then 2 (each appending its id to
the pixel data) the stored filtered value is the chain applied in
registration order. -/
theorem c6_filter_chain_witness :
    rawValue (tick c6Env c6State []) = some ⟨1, 1, [3]⟩ ∧
    filteredValue (tick c6Env c6State []) =
      some (c6Env.filterImpl 2 (c6Env.filterImpl 1 ⟨1, 1, [3]⟩)) :=
  ⟨(c6_filter_chain c6Env c6State [] ⟨1, 1, [3]⟩ 1 2
      rfl rfl rfl (by decide) rfl rfl).1,
   (c6_filter_chain c6Env c6State [] ⟨1, 1, [3]⟩ 1 2
      rfl rfl rfl (by decide) rfl rfl).2.1⟩

end VideoModel
